import Mathlib

/-!
Verification development for the printer-manager application (`src/main.py`).

The Python source is shallowly embedded: every subprocess invocation is
represented by an `Outcome` value supplied by an environment record, and each
embedded function additionally returns the ordered trace of the external
commands it issued, so that "never invokes X" properties can be stated as
facts about the trace.  Python exception flow (`try`/`except`) is translated
into explicit case analysis on outcomes; a call whose outcome is `timeout`
raises `TimeoutExpired`, a call whose outcome is `exn m` raises a generic
exception with text `m`.

String operations mirror Python `str` semantics at the ASCII level
(`lower`, `strip`, `split`, `splitlines`, `replace`, containment via `in`),
implemented by structural recursion over `List Char` so that every concrete
instance evaluates inside the kernel.
-/

namespace PM

/-! ### Python string primitives -/

/-- Python `str.split(sep)`-style splitting of a character list at every
character satisfying `p`, keeping empty fields (like `"a\nb".split('\n')`). -/
def splitOnPred (p : Char → Bool) : List Char → List (List Char)
  | [] => [[]]
  | c :: t =>
    if p c then [] :: splitOnPred p t
    else
      match splitOnPred p t with
      | [] => [[c]]
      | h :: r => (c :: h) :: r

/-- Python `s.split('\n')`. -/
def splitNl (s : String) : List String :=
  (splitOnPred (fun c => c == '\n') s.toList).map (fun l => String.mk l)

/-- Python `s.split()` — split on whitespace runs, dropping empty fields. -/
def pyWords (s : String) : List String :=
  ((splitOnPred (fun c => c.isWhitespace) s.toList).filter (fun l => l ≠ [])).map
    (fun l => String.mk l)

/-- Python `s.strip()`. -/
def pyStrip (s : String) : String :=
  String.mk (((s.toList.dropWhile Char.isWhitespace).reverse.dropWhile
    Char.isWhitespace).reverse)

/-- Python `s.lower()` (ASCII case folding). -/
def pyLower (s : String) : String := String.mk (s.toList.map Char.toLower)

/-- Substring containment on character lists (Python `needle in hay`). -/
def containsSub (needle : List Char) : List Char → Bool
  | [] => needle.isEmpty
  | c :: t => needle.isPrefixOf (c :: t) || containsSub needle t

/-- Python `needle in hay` for strings. -/
def pyIn (needle hay : String) : Bool := containsSub needle.toList hay.toList

/-- Python `s.startswith(pre)`. -/
def pyStartsWith (s pre : String) : Bool := pre.toList.isPrefixOf s.toList

/-- Fuel-driven worker for `pyReplace`; the fuel is the length of the
remaining text, which bounds the number of recursion steps. -/
def replaceAllAux (pat rep : List Char) : Nat → List Char → List Char
  | _, [] => []
  | 0, hay => hay
  | n + 1, c :: t =>
    if pat.isPrefixOf (c :: t) then
      rep ++ replaceAllAux pat rep n (List.drop pat.length (c :: t))
    else
      c :: replaceAllAux pat rep n t

/-- Python `s.replace(pat, rep)` — all non-overlapping occurrences,
left to right (only called with non-empty `pat` in this development). -/
def pyReplace (s pat rep : String) : String :=
  String.mk (replaceAllAux pat.toList rep.toList s.toList.length s.toList)

/-- Python `' '.join(parts)`. -/
def joinSp (parts : List String) : String := String.intercalate " " parts

/-! ### Subprocess model -/

/-- The behaviour of one external command invocation, chosen by the
environment: a completed process with exit code / stdout / stderr, a
timeout (Python raises `subprocess.TimeoutExpired`), or some other
exception with message `m`. -/
inductive Outcome where
  | ok (returncode : Int) (stdout : String) (stderr : String)
  | timeout
  | exn (m : String)
deriving DecidableEq, Repr

/-- A Python exception escaping a `subprocess.run` call. -/
inductive PyExn where
  | timeoutExpired (m : String)
  | other (m : String)
deriving DecidableEq, Repr

/-- Python `str(e)` on the exception. -/
def PyExn.str : PyExn → String
  | .timeoutExpired m => m
  | .other m => m

/-- `subprocess.run` in the `Except` monad: `ok` returns the completed
process data, a timeout raises `TimeoutExpired`, anything else raises a
generic exception. `m` is the synthetic timeout message. -/
def runCall (tmsg : String) (o : Outcome) : Except PyExn (Int × String × String) :=
  match o with
  | .ok rc out err => .ok (rc, out, err)
  | .timeout => .error (.timeoutExpired tmsg)
  | .exn m => .error (.other m)

/-! ### `safe_name` (src/main.py lines 581-582) -/

/-- Membership in the character class `[a-zA-Z0-9_]` of the regex in
`safe_name`. -/
def isWordChar (c : Char) : Bool :=
  ('a' ≤ c && c ≤ 'z') || ('A' ≤ c && c ≤ 'Z') || ('0' ≤ c && c ≤ '9') || c == '_'

/-- `re.sub(r"[^a-zA-Z0-9_]", "_", text)`: every character outside the
class is replaced by an underscore. -/
def safe_name (text : String) : String :=
  String.mk (text.toList.map (fun c => if isWordChar c then c else '_'))

/-! ### `DriverCache` (src/main.py lines 529-571) -/

/-- `DriverCache.get_drivers_from_system`: run `lpinfo -m`; on exit code 0
return `stdout.splitlines()`, on non-zero exit or any exception return `[]`. -/
def get_drivers_from_system (lpinfoM : Outcome) : List String :=
  match lpinfoM with
  | .ok rc out _ => if rc == 0 then splitNl out else []
  | _ => []

/-- `DriverCache.get_drivers(keyword)`: always re-fetch the full listing;
if `keyword` is non-empty (Python truthiness), keep the lines containing it
case-insensitively; return the first 100 results. -/
def get_drivers (lpinfoM : Outcome) (keyword : String) : List String :=
  let drivers := get_drivers_from_system lpinfoM
  let drivers :=
    if keyword ≠ "" then
      drivers.filter (fun d => pyIn (pyLower keyword) (pyLower d))
    else drivers
  drivers.take 100

/-! ### `CUPSHealthManager.get_cups_status` (src/main.py lines 59-155) -/

/-- One parsed printer of the health check (`status['printers']` entries). -/
structure Printer where
  name : String
  state : String
  has_issues : Bool
deriving DecidableEq, Repr

/-- The `status` dictionary built by `get_cups_status`. -/
structure Status where
  cups_active : Bool
  cups_hung : Bool
  stuck_jobs : Nat
  printers : List Printer
  total_printers : Nat
  problem_printers : Nat
  error : Option String
deriving DecidableEq, Repr

/-- The initial `status` dictionary (lines 64-72). -/
def statusInit : Status :=
  { cups_active := false, cups_hung := false, stuck_jobs := 0, printers := []
    total_printers := 0, problem_printers := 0, error := none }

/-- The four external commands a health check may issue, in source order. -/
inductive Cmd where
  | isActiveCups
  | lpstatR
  | lpstatP
  | lpstatO
deriving DecidableEq, Repr

/-- Environment of a health check: the outcome of each potential command. -/
structure StatusEnv where
  isActiveCups : Outcome
  lpstatR : Outcome
  lpstatP : Outcome
  lpstatO : Outcome
deriving DecidableEq, Repr

/-- `'processing' in state.lower() or 'stopped' in state.lower()`
(line 126). -/
def healthHasIssues (state : String) : Bool :=
  pyIn "processing" (pyLower state) || pyIn "stopped" (pyLower state)

/-- One iteration of the parsing loop of lines 117-127: a line is kept when
it starts with `"printer"` and splits into at least two fields; the state is
the space-join of the remaining fields. -/
def parseHealthLine (line : String) : Option Printer :=
  if pyStartsWith line "printer" then
    match pyWords line with
    | _ :: nm :: rest =>
      let state := if rest ≠ [] then joinSp rest else ""
      some { name := nm, state := state, has_issues := healthHasIssues state }
    | _ => none
  else none

/-- The whole parsing loop over `result.stdout.split('\n')`. -/
def parseHealthPrinters (out : String) : List Printer :=
  (splitNl out).filterMap parseHealthLine

/-- `len(result.stdout.strip().split('\n')) if result.stdout.strip() else 0`
(line 147). -/
def stuckJobCount (out : String) : Nat :=
  if pyStrip out ≠ "" then (splitNl (pyStrip out)).length else 0

/-- Stuck-job block, lines 138-149: a bare `except` swallows every failure. -/
def statusStep4 (env : StatusEnv) (s : Status) (tr : List Cmd) :
    Status × List Cmd :=
  match env.lpstatO with
  | .ok rc out _ =>
    (if rc == 0 then { s with stuck_jobs := stuckJobCount out } else s,
     tr ++ [Cmd.lpstatO])
  | _ => (s, tr ++ [Cmd.lpstatO])

/-- Printer-list block, lines 106-136: inside its `try` only
`TimeoutExpired` is caught (setting `cups_hung` and `error`), any other
exception escapes to the outer handler; control then falls through to the
stuck-job block. -/
def statusStep3 (env : StatusEnv) (s : Status) (tr : List Cmd) :
    Status × List Cmd :=
  match env.lpstatP with
  | .ok rc out _ =>
    let s :=
      if rc == 0 then
        let printers := parseHealthPrinters out
        { s with printers := printers, total_printers := printers.length
                 problem_printers := (printers.filter (fun p => p.has_issues)).length }
      else s
    statusStep4 env s (tr ++ [Cmd.lpstatP])
  | .timeout =>
    statusStep4 env
      { s with cups_hung := true, error := some "Printer list command timed out" }
      (tr ++ [Cmd.lpstatP])
  | .exn m => (({ s with error := some m } : Status), tr ++ [Cmd.lpstatP])

/-- `get_cups_status` returning the final `status` and the ordered trace of
commands actually issued.  Outer `try`/`except Exception` (lines 74, 151-153)
turns any uncaught exception into `status['error'] = str(e)`. -/
def getCupsStatusT (env : StatusEnv) : Status × List Cmd :=
  match env.isActiveCups with
  | .exn m => ({ statusInit with error := some m }, [Cmd.isActiveCups])
  | .timeout =>
    ({ statusInit with error := some (PyExn.str (.timeoutExpired "systemctl timed out")) },
     [Cmd.isActiveCups])
  | .ok rc _ _ =>
    let s := { statusInit with cups_active := rc == 0 }
    if rc == 0 then
      match env.lpstatR with
      | .ok rc2 _ _ =>
        if rc2 == 0 then
          statusStep3 env s [Cmd.isActiveCups, Cmd.lpstatR]
        else
          ({ s with cups_hung := true, error := some "CUPS scheduler not responding" },
           [Cmd.isActiveCups, Cmd.lpstatR])
      | .timeout =>
        ({ s with cups_hung := true, error := some "CUPS command timed out" },
         [Cmd.isActiveCups, Cmd.lpstatR])
      | .exn m =>
        (({ s with error := some m } : Status), [Cmd.isActiveCups, Cmd.lpstatR])
    else
      ({ s with error := some "CUPS service not active" }, [Cmd.isActiveCups])

/-- The `status` dictionary returned by `get_cups_status`. -/
def getCupsStatus (env : StatusEnv) : Status := (getCupsStatusT env).1

/-- The ordered list of external commands issued by `get_cups_status`. -/
def cupsCalls (env : StatusEnv) : List Cmd := (getCupsStatusT env).2

/-- Printer-list and stuck-job blocks as seen from *inside* the outer
`try` of `get_cups_status`: an exception that no inner handler catches is
surfaced as `.error` together with the status and trace accumulated so
far.  Only `lpstat -p` can leak an exception here (its inner handler
catches just `TimeoutExpired`); the stuck-job block catches everything. -/
def statusStep3Raw (env : StatusEnv) (s : Status) (tr : List Cmd) :
    Except (PyExn × Status × List Cmd) (Status × List Cmd) :=
  match env.lpstatP with
  | .exn m => .error (.other m, s, tr ++ [Cmd.lpstatP])
  | _ => .ok (statusStep3 env s tr)

/-- The whole `try` block of `get_cups_status` (lines 74-149): `.error`
means an exception reached the outer `except Exception` handler, carrying
the `status` dictionary and command trace at that point. -/
def getCupsStatusRaw (env : StatusEnv) :
    Except (PyExn × Status × List Cmd) (Status × List Cmd) :=
  match env.isActiveCups with
  | .timeout =>
    .error (.timeoutExpired "systemctl timed out", statusInit, [Cmd.isActiveCups])
  | .exn m => .error (.other m, statusInit, [Cmd.isActiveCups])
  | .ok rc _ _ =>
    let s := { statusInit with cups_active := rc == 0 }
    if rc == 0 then
      match env.lpstatR with
      | .ok rc2 _ _ =>
        if rc2 == 0 then statusStep3Raw env s [Cmd.isActiveCups, Cmd.lpstatR]
        else
          .ok ({ s with cups_hung := true, error := some "CUPS scheduler not responding" },
               [Cmd.isActiveCups, Cmd.lpstatR])
      | .timeout =>
        .ok ({ s with cups_hung := true, error := some "CUPS command timed out" },
             [Cmd.isActiveCups, Cmd.lpstatR])
      | .exn m => .error (.other m, s, [Cmd.isActiveCups, Cmd.lpstatR])
    else
      .ok ({ s with error := some "CUPS service not active" }, [Cmd.isActiveCups])

/-- `get_cups_status` as the `try` block composed with the outer
`except Exception as e` handler (lines 151-153), which stores `str(e)` in
`status['error']` and falls through to `return status`. -/
def getCupsStatusX (env : StatusEnv) : Except PyExn (Status × List Cmd) :=
  match getCupsStatusRaw env with
  | .ok r => .ok r
  | .error (e, s, tr) => .ok ({ s with error := some e.str }, tr)

/-! ### `PrinterManager.get_printer_details` (src/main.py lines 353-395) -/

/-- Environment of a details lookup for one queue: the outcomes of
`lpstat -p <name> -l` and `lpstat -o <name>`. -/
structure DetailsEnv where
  lpstatPl : Outcome
  lpstatOName : Outcome
deriving DecidableEq, Repr

/-- The `details` dictionary.  The Python dictionary starts as
`{"name": printer_name}` and gains keys only when the corresponding
attribute line appears (or the job-listing call completes), so every other
field is an `Option`, `none` meaning "key absent". -/
structure Details where
  name : String
  description : Option String
  location : Option String
  uri : Option String
  active_jobs : Option Nat
deriving DecidableEq, Repr

/-- One iteration of the attribute loop (lines 369-376): the stripped line
is tested for *containment* of the markers `"Description:"`, `"Location:"`,
`"DeviceURI:"` (an `elif` chain), and the value stored is the line with all
marker occurrences removed, stripped. -/
def detailsLine (d : Details) (line0 : String) : Details :=
  let line := pyStrip line0
  if pyIn "Description:" line then
    { d with description := some (pyStrip (pyReplace line "Description:" "")) }
  else if pyIn "Location:" line then
    { d with location := some (pyStrip (pyReplace line "Location:" "")) }
  else if pyIn "DeviceURI:" line then
    { d with uri := some (pyStrip (pyReplace line "DeviceURI:" "")) }
  else d

/-- `get_printer_details`: the single `try` covers both calls, with a bare
`except` that abandons whatever was not yet assigned (lines 358-394). -/
def get_printer_details (printer_name : String) (env : DetailsEnv) : Details :=
  let d0 : Details :=
    { name := printer_name, description := none, location := none
      uri := none, active_jobs := none }
  match env.lpstatPl with
  | .ok rc out _ =>
    let d1 := if rc == 0 then (splitNl out).foldl detailsLine d0 else d0
    match env.lpstatOName with
    | .ok rc2 out2 _ =>
      if rc2 == 0 && pyStrip out2 ≠ "" then
        { d1 with active_jobs := some (splitNl (pyStrip out2)).length }
      else
        { d1 with active_jobs := some 0 }
    | _ => d1
  | _ => d0

/-! ### `PrinterManager.get_available_printers` (src/main.py lines 307-351) -/

/-- One enriched printer record (`printer_info`, lines 333-343). -/
structure PrinterInfo where
  name : String
  status : String
  description : String
  location : String
  uri : String
  is_enabled : Bool
  has_issues : Bool
deriving DecidableEq, Repr

/-- Environment of the enriched listing: the `lpstat -p` outcome plus, for
every queue name, the outcomes of its details lookup. -/
structure ListEnv where
  lpstatP : Outcome
  details : String → DetailsEnv

/-- The `has_issues` expression of lines 340-342: `"processing"`,
`"stopped"` **or** `"disabled"` in the lowered status. -/
def listHasIssues (status : String) : Bool :=
  pyIn "processing" (pyLower status) || pyIn "stopped" (pyLower status) ||
    pyIn "disabled" (pyLower status)

/-- One iteration of the listing loop (lines 323-344); note the prefix here
is `"printer "` with a trailing space, unlike the health check. -/
def parseListLine (env : ListEnv) (line : String) : Option PrinterInfo :=
  if pyStartsWith line "printer " then
    match pyWords line with
    | _ :: nm :: rest =>
      let status := if rest ≠ [] then joinSp rest else ""
      let det := get_printer_details nm (env.details nm)
      some { name := nm, status := status
             description := det.description.getD ""
             location := det.location.getD ""
             uri := det.uri.getD ""
             is_enabled := pyIn "enabled" (pyLower status)
             has_issues := listHasIssues status }
    | _ => none
  else none

/-- `get_available_printers`: on exit code 0 parse `stdout.splitlines()`,
otherwise (non-zero exit, timeout or exception) the caller gets `[]`. -/
def get_available_printers (env : ListEnv) : List PrinterInfo :=
  match env.lpstatP with
  | .ok rc out _ =>
    if rc == 0 then (splitNl out).filterMap (parseListLine env) else []
  | _ => []

/-! ### `PrinterManager.test_printer` (src/main.py lines 397-464) -/

/-- The external commands `test_printer` may issue, in source order. -/
inductive TCmd where
  | cupsenable
  | cupsaccept
  | lpstatPName
  | submitLp
  | submitLpr
  | submitRaw
deriving DecidableEq, Repr

/-- Environment of one `test_printer` run. -/
structure TestEnv where
  cupsenable : Outcome
  cupsaccept : Outcome
  lpstatPName : Outcome
  submitLp : Outcome
  submitLpr : Outcome
  submitRaw : Outcome
deriving DecidableEq, Repr

/-- `subprocess.run` inside `test_printer`, threading the command trace so
that an escaping exception still reports which commands were issued. -/
def runCallT (tmsg : String) (o : Outcome) (c : TCmd) (tr : List TCmd) :
    Except (PyExn × List TCmd) (Int × String × String × List TCmd) :=
  match o with
  | .ok rc out err => .ok (rc, out, err, tr ++ [c])
  | .timeout => .error (.timeoutExpired tmsg, tr ++ [c])
  | .exn m => .error (.other m, tr ++ [c])

/-- The submit loop of lines 444-457: run each method in order, returning
success on the first zero exit; an exception escapes to the outer handler. -/
def testSubmitLoop (tr : List TCmd) :
    List (Outcome × TCmd × String) →
      Except (PyExn × List TCmd) ((Bool × String) × List TCmd)
  | [] => .ok ((false, "All print methods failed"), tr)
  | (o, c, label) :: rest =>
    match runCallT "submit timed out" o c tr with
    | .error e => .error e
    | .ok (rc, _, _, tr2) =>
      if rc == 0 then .ok ((true, "✓ Test page sent via " ++ label), tr2)
      else testSubmitLoop tr2 rest

/-- The body of `test_printer` inside its `try` (lines 402-460): enable and
accept the queue (results unchecked), check existence via
`lpstat -p <name>`, fail fast on non-zero exit, otherwise try the three
submit methods in order. -/
def testPrinterBody (printer_name : String) (env : TestEnv) :
    Except (PyExn × List TCmd) ((Bool × String) × List TCmd) := do
  let (_, _, _, tr1) ← runCallT "cupsenable timed out" env.cupsenable .cupsenable []
  let (_, _, _, tr2) ← runCallT "cupsaccept timed out" env.cupsaccept .cupsaccept tr1
  let (rc, _, _, tr3) ← runCallT "lpstat timed out" env.lpstatPName .lpstatPName tr2
  if rc != 0 then
    return ((false, "Printer '" ++ printer_name ++ "' not found"), tr3)
  else
    testSubmitLoop tr3
      [(env.submitLp, TCmd.submitLp, "Method 1 (lp)"),
       (env.submitLpr, TCmd.submitLpr, "Method 2 (lpr)"),
       (env.submitRaw, TCmd.submitRaw, "Method 3 (raw)")]

/-- `test_printer` with the outer `except Exception` handler of lines
462-464; the result pairs `(success, message)` with the command trace. -/
def test_printer (printer_name : String) (env : TestEnv) :
    (Bool × String) × List TCmd :=
  match testPrinterBody printer_name env with
  | .ok r => r
  | .error (e, tr) => ((false, "Error: " ++ e.str), tr)

/-! ### `CUPSHealthManager.fix_cups_issues` (src/main.py lines 157-239) -/

/-- The external commands of the fix procedure, in source order. -/
inductive FCmd where
  | stopBrowsed
  | cancelAll
  | restartCups
  | verifyActive
deriving DecidableEq, Repr

/-- One entry of the spool directory: whether `os.path.isfile` holds and
whether `os.remove` raises (with which message). -/
structure SpoolItem where
  isFile : Bool
  removeError : Option String
deriving DecidableEq, Repr

/-- The loop of lines 194-197: remove regular files in listing order; the
first failing removal raises, aborting the loop (caught by the inner
handler of line 199). -/
def cleanSpool : List SpoolItem → Except String Unit
  | [] => .ok ()
  | it :: rest =>
    if it.isFile then
      match it.removeError with
      | some m => .error m
      | none => cleanSpool rest
    else cleanSpool rest

/-- Environment of one `fix_cups_issues` run. -/
structure FixEnv where
  stopBrowsed : Outcome
  cancelAll : Outcome
  spoolExists : Bool
  spoolItems : List SpoolItem
  restartCups : Outcome
  verifyActive : Outcome
deriving Repr

/-- `fix_cups_issues`: the `(success, transcript)` pair (the source joins
the transcript with newlines; the ordered list of lines is kept here)
together with the ordered trace of external commands.  Any exception from a
subprocess call is caught by the outer handler of lines 236-239, which
appends one `✗ Error` line and returns failure. -/
def fix_cups_issues (env : FixEnv) : (Bool × List String) × List FCmd :=
  let steps := ["=== CUPS Fix Procedure ===", "1. Stopping cups-browsed..."]
  match env.stopBrowsed with
  | .timeout =>
    ((false, steps ++ ["✗ Error during CUPS fix: stop cups-browsed timed out"]),
     [FCmd.stopBrowsed])
  | .exn m =>
    ((false, steps ++ ["✗ Error during CUPS fix: " ++ m]), [FCmd.stopBrowsed])
  | .ok rc1 _ err1 =>
    let steps := steps ++
      [if rc1 == 0 then "   ✓ cups-browsed stopped"
       else "   ⚠ Could not stop cups-browsed: " ++ err1,
       "2. Cancelling all print jobs..."]
    match env.cancelAll with
    | .timeout =>
      ((false, steps ++ ["✗ Error during CUPS fix: cancel timed out"]),
       [FCmd.stopBrowsed, FCmd.cancelAll])
    | .exn m =>
      ((false, steps ++ ["✗ Error during CUPS fix: " ++ m]),
       [FCmd.stopBrowsed, FCmd.cancelAll])
    | .ok _ _ _ =>
      let steps := steps ++ ["   ✓ All jobs cancelled", "3. Cleaning spool directory..."]
      let steps :=
        if env.spoolExists then
          match cleanSpool env.spoolItems with
          | .ok _ => steps ++ ["   ✓ Spool directory cleaned"]
          | .error m => steps ++ ["   ⚠ Could not clean spool: " ++ m]
        else steps
      let steps := steps ++ ["4. Restarting CUPS..."]
      match env.restartCups with
      | .timeout =>
        ((false, steps ++ ["✗ Error during CUPS fix: restart timed out"]),
         [FCmd.stopBrowsed, FCmd.cancelAll, FCmd.restartCups])
      | .exn m =>
        ((false, steps ++ ["✗ Error during CUPS fix: " ++ m]),
         [FCmd.stopBrowsed, FCmd.cancelAll, FCmd.restartCups])
      | .ok rc4 _ err4 =>
        if rc4 == 0 then
          let steps := steps ++ ["   ✓ CUPS restarted", "5. Verifying CUPS..."]
          match env.verifyActive with
          | .timeout =>
            ((false, steps ++ ["✗ Error during CUPS fix: verify timed out"]),
             [FCmd.stopBrowsed, FCmd.cancelAll, FCmd.restartCups, FCmd.verifyActive])
          | .exn m =>
            ((false, steps ++ ["✗ Error during CUPS fix: " ++ m]),
             [FCmd.stopBrowsed, FCmd.cancelAll, FCmd.restartCups, FCmd.verifyActive])
          | .ok rc5 _ _ =>
            if rc5 == 0 then
              ((true, steps ++ ["   ✓ CUPS is active and running"]),
               [FCmd.stopBrowsed, FCmd.cancelAll, FCmd.restartCups, FCmd.verifyActive])
            else
              ((false, steps ++ ["   ✗ CUPS failed to start"]),
               [FCmd.stopBrowsed, FCmd.cancelAll, FCmd.restartCups, FCmd.verifyActive])
        else
          ((false, steps ++ ["   ✗ Failed to restart CUPS: " ++ err4]),
           [FCmd.stopBrowsed, FCmd.cancelAll, FCmd.restartCups])

/-- A transcript line that introduces one of the five numbered steps. -/
def isStepHeader (l : String) : Bool :=
  pyStartsWith l "1." || pyStartsWith l "2." || pyStartsWith l "3." ||
    pyStartsWith l "4." || pyStartsWith l "5."

/-! ### Spec-side predicate (for the refinement claim about `hasIssues`) -/

/-- Modelled from the spec's words: "`hasIssues` is true iff stateText
case-insensitively contains \"processing\" or \"stopped\"". -/
def specHasIssues (stateText : String) : Bool :=
  pyIn "processing" (pyLower stateText) || pyIn "stopped" (pyLower stateText)

/-! ### Helper lemmas -/

lemma statusStep4_cups_active (env : StatusEnv) (s : Status) (tr : List Cmd) :
    (statusStep4 env s tr).1.cups_active = s.cups_active := by
  unfold statusStep4
  cases env.lpstatO <;> simp
  split <;> rfl

lemma statusStep4_cups_hung (env : StatusEnv) (s : Status) (tr : List Cmd) :
    (statusStep4 env s tr).1.cups_hung = s.cups_hung := by
  unfold statusStep4
  cases env.lpstatO <;> simp
  split <;> rfl

lemma statusStep4_error (env : StatusEnv) (s : Status) (tr : List Cmd) :
    (statusStep4 env s tr).1.error = s.error := by
  unfold statusStep4
  cases env.lpstatO <;> simp
  split <;> rfl

lemma statusStep4_printers (env : StatusEnv) (s : Status) (tr : List Cmd) :
    (statusStep4 env s tr).1.printers = s.printers := by
  unfold statusStep4
  cases env.lpstatO <;> simp
  split <;> rfl

lemma statusStep3_cups_active (env : StatusEnv) (s : Status) (tr : List Cmd) :
    (statusStep3 env s tr).1.cups_active = s.cups_active := by
  unfold statusStep3
  cases env.lpstatP <;> simp [statusStep4_cups_active]
  split <;> simp [statusStep4_cups_active]

lemma statusStep3_printers (env : StatusEnv) (s : Status) (tr : List Cmd) :
    (statusStep3 env s tr).1.printers = s.printers ∨
      ∃ out, (statusStep3 env s tr).1.printers = parseHealthPrinters out := by
  unfold statusStep3
  cases h : env.lpstatP with
  | ok rc out err =>
    by_cases hrc : rc == 0
    · exact Or.inr ⟨out, by simp [hrc, statusStep4_printers]⟩
    · exact Or.inl (by simp [hrc, statusStep4_printers])
  | timeout => exact Or.inl (by simp [statusStep4_printers])
  | exn m => exact Or.inl (by simp)

lemma parseHealthLine_hasIssues {line : String} {p : Printer}
    (h : parseHealthLine line = some p) :
    p.has_issues = healthHasIssues p.state := by
  unfold parseHealthLine at h
  split at h
  · split at h
    · rename_i nm rest heq
      rw [Option.some.injEq] at h
      subst h
      rfl
    · exact absurd h (by simp)
  · exact absurd h (by simp)

lemma parseHealthPrinters_hasIssues {out : String} {p : Printer}
    (h : p ∈ parseHealthPrinters out) :
    p.has_issues = healthHasIssues p.state := by
  unfold parseHealthPrinters at h
  rw [List.mem_filterMap] at h
  obtain ⟨line, _, hl⟩ := h
  exact parseHealthLine_hasIssues hl

/-! ### Claim theorems -/

/-- **C1.** Whenever the service-active query (`systemctl is-active cups`)
completes with a non-zero exit code (service inactive), `get_cups_status`
reports `cups_active = false` with the error message set, and the only
command it issued is the service-active query itself: the responsiveness
probe (`lpstat -r`) and all later queries are never invoked. -/
theorem c1_inactive_short_circuits (env : StatusEnv) (rc : Int) (out err : String)
    (h : env.isActiveCups = .ok rc out err) (hrc : rc ≠ 0) :
    (getCupsStatus env).cups_active = false ∧
    (getCupsStatus env).error = some "CUPS service not active" ∧
    cupsCalls env = [Cmd.isActiveCups] ∧
    (cupsCalls env).count Cmd.lpstatR = 0 ∧
    (cupsCalls env).count Cmd.lpstatP = 0 ∧
    (cupsCalls env).count Cmd.lpstatO = 0 := by
  have hb : (rc == 0) = false := by simpa using hrc
  unfold getCupsStatus cupsCalls getCupsStatusT
  rw [h]
  simp [hb, statusInit]

/-- Witness for C1 at a concrete environment (`systemctl` exits 3). -/
theorem c1_witness :
    (getCupsStatus ⟨.ok 3 "inactive\n" "", .ok 0 "" "", .ok 0 "" "", .ok 0 "" ""⟩).cups_active
        = false ∧
    (getCupsStatus ⟨.ok 3 "inactive\n" "", .ok 0 "" "", .ok 0 "" "", .ok 0 "" ""⟩).error
        = some "CUPS service not active" ∧
    cupsCalls ⟨.ok 3 "inactive\n" "", .ok 0 "" "", .ok 0 "" "", .ok 0 "" ""⟩
        = [Cmd.isActiveCups] ∧
    (cupsCalls ⟨.ok 3 "inactive\n" "", .ok 0 "" "", .ok 0 "" "", .ok 0 "" ""⟩).count Cmd.lpstatR
        = 0 ∧
    (cupsCalls ⟨.ok 3 "inactive\n" "", .ok 0 "" "", .ok 0 "" "", .ok 0 "" ""⟩).count Cmd.lpstatP
        = 0 ∧
    (cupsCalls ⟨.ok 3 "inactive\n" "", .ok 0 "" "", .ok 0 "" "", .ok 0 "" ""⟩).count Cmd.lpstatO
        = 0 :=
  c1_inactive_short_circuits _ 3 "inactive\n" "" rfl (by decide)

/-- **C2.** When the service is active but the responsiveness probe
(`lpstat -r`) exits non-zero or times out, `get_cups_status` sets
`cups_hung = true` and returns immediately: the queue-listing call
(`lpstat -p`) is never issued (nor is `lpstat -o`). -/
theorem c2_probe_failure_short_circuits (env : StatusEnv) (out err : String)
    (h : env.isActiveCups = .ok 0 out err)
    (hr : env.lpstatR = .timeout ∨
          ∃ rc2 out2 err2, env.lpstatR = .ok rc2 out2 err2 ∧ rc2 ≠ 0) :
    (getCupsStatus env).cups_hung = true ∧
    (getCupsStatus env).error.isSome = true ∧
    cupsCalls env = [Cmd.isActiveCups, Cmd.lpstatR] ∧
    (cupsCalls env).count Cmd.lpstatP = 0 ∧
    (cupsCalls env).count Cmd.lpstatO = 0 := by
  unfold getCupsStatus cupsCalls getCupsStatusT
  rw [h]
  rcases hr with hr | ⟨rc2, out2, err2, hr, hrc2⟩
  · rw [hr]; simp
  · have hb : (rc2 == 0) = false := by simpa using hrc2
    rw [hr]; simp [hb]

/-- Witness for C2 at a concrete environment (probe times out). -/
theorem c2_witness :
    (getCupsStatus ⟨.ok 0 "active\n" "", .timeout, .ok 0 "" "", .ok 0 "" ""⟩).cups_hung
        = true ∧
    (getCupsStatus ⟨.ok 0 "active\n" "", .timeout, .ok 0 "" "", .ok 0 "" ""⟩).error.isSome
        = true ∧
    cupsCalls ⟨.ok 0 "active\n" "", .timeout, .ok 0 "" "", .ok 0 "" ""⟩
        = [Cmd.isActiveCups, Cmd.lpstatR] ∧
    (cupsCalls ⟨.ok 0 "active\n" "", .timeout, .ok 0 "" "", .ok 0 "" ""⟩).count Cmd.lpstatP
        = 0 ∧
    (cupsCalls ⟨.ok 0 "active\n" "", .timeout, .ok 0 "" "", .ok 0 "" ""⟩).count Cmd.lpstatO
        = 0 :=
  c2_probe_failure_short_circuits _ "active\n" "" rfl (Or.inl rfl)

lemma getCupsStatus_printers (env : StatusEnv) :
    (getCupsStatus env).printers = [] ∨
      ∃ out, (getCupsStatus env).printers = parseHealthPrinters out := by
  unfold getCupsStatus getCupsStatusT
  cases env.isActiveCups with
  | exn m => exact Or.inl rfl
  | timeout => exact Or.inl rfl
  | ok rc out err =>
    by_cases hrc : rc == 0
    · simp only [hrc, if_true]
      cases env.lpstatR with
      | ok rc2 o2 e2 =>
        by_cases h2 : rc2 == 0
        · simp only [h2, if_true]
          exact statusStep3_printers env _ _
        · simp only [h2, if_false]
          exact Or.inl rfl
      | timeout => exact Or.inl rfl
      | exn m => exact Or.inl rfl
    · simp only [hrc, if_false]
      exact Or.inl rfl

lemma parseListLine_hasIssues {env : ListEnv} {line : String} {p : PrinterInfo}
    (h : parseListLine env line = some p) :
    p.has_issues = listHasIssues p.status := by
  unfold parseListLine at h
  split at h
  · split at h
    · rename_i nm rest heq
      rw [Option.some.injEq] at h
      subst h
      rfl
    · exact absurd h (by simp)
  · exact absurd h (by simp)

/-- **C3 (counterexample).** The claim fails on the enriched printer
listing: for the queue line `"printer P1 disabled"` the produced record has
`has_issues = true`, yet the state text `"disabled"` does not contain
`"processing"` or `"stopped"` case-insensitively (lines 340-342 of the
source additionally test for `"disabled"`). -/
theorem c3_counterexample :
    (get_available_printers
        ⟨.ok 0 "printer P1 disabled" "",
         fun _ => ⟨.exn "unavailable", .exn "unavailable"⟩⟩).map
      (fun p => (p.status, p.has_issues)) = [("disabled", true)] ∧
    specHasIssues "disabled" = false :=
  ⟨rfl, rfl⟩

/-- **C3 (amended).** Every queue record of the health check satisfies
`has_issues = true` iff its state text case-insensitively contains
`"processing"` or `"stopped"`; every record of the enriched printer listing
satisfies `has_issues = true` iff its status text case-insensitively
contains `"processing"`, `"stopped"` **or** `"disabled"`. -/
theorem c3_amended_has_issues :
    (∀ env : StatusEnv, ∀ p ∈ (getCupsStatus env).printers,
        p.has_issues = specHasIssues p.state) ∧
    (∀ env : ListEnv, ∀ p ∈ get_available_printers env,
        p.has_issues = (specHasIssues p.status || pyIn "disabled" (pyLower p.status))) := by
  constructor
  · intro env p hp
    rcases getCupsStatus_printers env with h | ⟨out, h⟩
    · rw [h] at hp
      exact absurd hp (by simp)
    · rw [h] at hp
      exact parseHealthPrinters_hasIssues hp
  · intro env p hp
    unfold get_available_printers at hp
    split at hp
    · split at hp
      · rw [List.mem_filterMap] at hp
        obtain ⟨line, _, hl⟩ := hp
        exact parseListLine_hasIssues hl
      · exact absurd hp (by simp)
    · exact absurd hp (by simp)

/-- Witness for C3 (amended), applying the health-check half to a concrete
environment whose queue listing holds one stopped printer. -/
theorem c3_witness :
    ({ name := "P1", state := "stopped since today", has_issues := true } : Printer).has_issues
      = specHasIssues
        ({ name := "P1", state := "stopped since today", has_issues := true } : Printer).state :=
  c3_amended_has_issues.1
    ⟨.ok 0 "" "", .ok 0 "" "", .ok 0 "printer P1 stopped since today" "", .ok 0 "" ""⟩
    _ (by decide)

lemma statusStep3_timeout (env : StatusEnv) (s : Status) (tr : List Cmd)
    (h : env.lpstatP = .timeout) :
    statusStep3 env s tr =
      statusStep4 env
        { s with cups_hung := true, error := some "Printer list command timed out" }
        (tr ++ [Cmd.lpstatP]) := by
  unfold statusStep3
  rw [h]

/-- **C4 (counterexample).** An environment where the service is active,
the probe and queue listing succeed, but the stuck-job query (`lpstat -o`)
times out: a sub-check timed out yet `error` is still `None`, because the
bare `except` of lines 148-149 swallows the timeout. -/
theorem c4_counterexample :
    (⟨.ok 0 "active\n" "", .ok 0 "" "", .ok 0 "" "", .timeout⟩ : StatusEnv).lpstatO
        = .timeout ∧
    (getCupsStatus ⟨.ok 0 "active\n" "", .ok 0 "" "", .ok 0 "" "", .timeout⟩).cups_active
        = true ∧
    (getCupsStatus ⟨.ok 0 "active\n" "", .ok 0 "" "", .ok 0 "" "", .timeout⟩).error
        = none :=
  ⟨rfl, rfl, rfl⟩

/-- **C4 (amended).** The `error` field is non-null whenever `cups_active`
is reported `false`, and whenever any of the **first three** sub-checks
(service-active query, responsiveness probe, queue listing) times out; a
timeout of the fourth sub-check (stuck-job count) is swallowed. -/
theorem c4_amended_error_invariant :
    (∀ env : StatusEnv, (getCupsStatus env).cups_active = false →
        (getCupsStatus env).error.isSome = true) ∧
    (∀ env : StatusEnv, env.isActiveCups = .timeout →
        (getCupsStatus env).error.isSome = true) ∧
    (∀ env : StatusEnv, ∀ out err, env.isActiveCups = .ok 0 out err →
        env.lpstatR = .timeout → (getCupsStatus env).error.isSome = true) ∧
    (∀ env : StatusEnv, ∀ out err out2 err2, env.isActiveCups = .ok 0 out err →
        env.lpstatR = .ok 0 out2 err2 → env.lpstatP = .timeout →
        (getCupsStatus env).error.isSome = true) := by
  refine ⟨?_, ?_, ?_, ?_⟩
  · intro env h
    revert h
    unfold getCupsStatus getCupsStatusT
    cases env.isActiveCups with
    | exn m => intro _; rfl
    | timeout => intro _; rfl
    | ok rc out err =>
      by_cases hrc : rc == 0
      · simp only [hrc, if_true]
        cases env.lpstatR with
        | ok rc2 o2 e2 =>
          by_cases h2 : rc2 == 0
          · simp only [h2, if_true]
            rw [statusStep3_cups_active]
            intro h
            exact absurd h (by simp)
          · simp only [h2, if_false]
            intro h
            exact absurd h (by simp)
        | timeout => intro h; exact absurd h (by simp)
        | exn m => intro h; exact absurd h (by simp)
      · simp only [hrc, if_false]
        intro _; rfl
  · intro env h
    unfold getCupsStatus getCupsStatusT
    rw [h]
    rfl
  · intro env out err h1 h2
    unfold getCupsStatus getCupsStatusT
    rw [h1, h2]
    simp
  · intro env out err out2 err2 h1 h2 h3
    unfold getCupsStatus getCupsStatusT
    rw [h1, h2]
    simp only [beq_self_eq_true, if_true]
    rw [statusStep3_timeout env _ _ h3, statusStep4_error]
    rfl

/-- Witness for C4 (amended): the probe times out in a concrete
environment, and the health record carries an error message. -/
theorem c4_witness :
    (getCupsStatus ⟨.ok 0 "active\n" "", .timeout, .ok 0 "" "", .ok 0 "" ""⟩).error.isSome
      = true :=
  c4_amended_error_invariant.2.2.1
    ⟨.ok 0 "active\n" "", .timeout, .ok 0 "" "", .ok 0 "" ""⟩ "active\n" "" rfl rfl

/-! ### Lemmas about the attribute parsing of `get_printer_details` -/

lemma detailsLine_description_skip {d : Details} {l : String}
    (h : pyIn "Description:" (pyStrip l) = false) :
    (detailsLine d l).description = d.description := by
  unfold detailsLine
  simp only [h, Bool.false_eq_true, if_false]
  split_ifs <;> rfl

lemma detailsLine_location_skip {d : Details} {l : String}
    (h : pyIn "Location:" (pyStrip l) = false) :
    (detailsLine d l).location = d.location := by
  simp only [detailsLine]
  split_ifs <;> simp_all

lemma detailsLine_uri_skip {d : Details} {l : String}
    (h : pyIn "DeviceURI:" (pyStrip l) = false) :
    (detailsLine d l).uri = d.uri := by
  simp only [detailsLine]
  split_ifs <;> simp_all

lemma detailsLine_description_isSome {d : Details} {l : String}
    (h : d.description.isSome = true) :
    ((detailsLine d l).description).isSome = true := by
  simp only [detailsLine]
  split_ifs <;> first | rfl | exact h

lemma detailsLine_description_set {d : Details} {l : String}
    (h : pyIn "Description:" (pyStrip l) = true) :
    ((detailsLine d l).description).isSome = true := by
  unfold detailsLine
  simp [h]

lemma foldl_detailsLine_description (lines : List String) (d : Details)
    (h : ∀ l ∈ lines, pyIn "Description:" (pyStrip l) = false) :
    ((lines.foldl detailsLine d)).description = d.description := by
  induction lines generalizing d with
  | nil => rfl
  | cons l t ih =>
    rw [List.foldl_cons, ih _ (fun x hx => h x (List.mem_cons_of_mem _ hx))]
    exact detailsLine_description_skip (h l (List.mem_cons_self _ _))

lemma foldl_detailsLine_location (lines : List String) (d : Details)
    (h : ∀ l ∈ lines, pyIn "Location:" (pyStrip l) = false) :
    ((lines.foldl detailsLine d)).location = d.location := by
  induction lines generalizing d with
  | nil => rfl
  | cons l t ih =>
    rw [List.foldl_cons, ih _ (fun x hx => h x (List.mem_cons_of_mem _ hx))]
    exact detailsLine_location_skip (h l (List.mem_cons_self _ _))

lemma foldl_detailsLine_uri (lines : List String) (d : Details)
    (h : ∀ l ∈ lines, pyIn "DeviceURI:" (pyStrip l) = false) :
    ((lines.foldl detailsLine d)).uri = d.uri := by
  induction lines generalizing d with
  | nil => rfl
  | cons l t ih =>
    rw [List.foldl_cons, ih _ (fun x hx => h x (List.mem_cons_of_mem _ hx))]
    exact detailsLine_uri_skip (h l (List.mem_cons_self _ _))

lemma foldl_detailsLine_keeps_description (lines : List String) (d : Details)
    (h : d.description.isSome = true) :
    ((lines.foldl detailsLine d).description).isSome = true := by
  induction lines generalizing d with
  | nil => exact h
  | cons l t ih => exact ih _ (detailsLine_description_isSome h)

lemma foldl_detailsLine_description_isSome (lines : List String) (d : Details)
    (h : ∃ l ∈ lines, pyIn "Description:" (pyStrip l) = true) :
    ((lines.foldl detailsLine d).description).isSome = true := by
  induction lines generalizing d with
  | nil => simp at h
  | cons l t ih =>
    rw [List.foldl_cons]
    rcases h with ⟨x, hx, hpx⟩
    rcases List.mem_cons.mp hx with rfl | hxt
    · exact foldl_detailsLine_keeps_description t _ (detailsLine_description_set hpx)
    · exact ih _ ⟨x, hxt, hpx⟩

/-- The attribute-parsing part of `get_printer_details` (the `active_jobs`
assignment never touches the other fields). -/
def gpdBase (name out : String) (rc : Int) : Details :=
  if rc == 0 then
    (splitNl out).foldl detailsLine
      { name := name, description := none, location := none, uri := none
        active_jobs := none }
  else
    { name := name, description := none, location := none, uri := none
      active_jobs := none }

lemma get_printer_details_eq (name out err : String) (rc : Int) (o2 : Outcome) :
    ∃ aj : Option Nat,
      get_printer_details name ⟨.ok rc out err, o2⟩ =
        { gpdBase name out rc with active_jobs := aj } := by
  cases o2 with
  | ok rc2 out2 e2 =>
    simp only [get_printer_details, gpdBase]
    split <;> exact ⟨_, rfl⟩
  | timeout =>
    simp only [get_printer_details, gpdBase]
    exact ⟨_, rfl⟩
  | exn m =>
    simp only [get_printer_details, gpdBase]
    exact ⟨_, rfl⟩

lemma parseListLine_detail_fields {env : ListEnv} {line : String} {p : PrinterInfo}
    (h : parseListLine env line = some p) :
    p.description = ((get_printer_details p.name (env.details p.name)).description).getD "" ∧
    p.location = ((get_printer_details p.name (env.details p.name)).location).getD "" ∧
    p.uri = ((get_printer_details p.name (env.details p.name)).uri).getD "" := by
  unfold parseListLine at h
  split at h
  · split at h
    · rw [Option.some.injEq] at h
      subst h
      exact ⟨rfl, rfl, rfl⟩
    · exact absurd h (by simp)
  · exact absurd h (by simp)

/-- **C5 (counterexample).** For `lpstat` output holding no attribute
lines, the returned record has its `description`, `location` and `uri`
keys *absent* (`none`), not present with the empty string — and a line
merely *containing* `"Description:"` (not starting with it) is still
parsed, so the matching is containment, not a prefix test. -/
theorem c5_counterexample :
    (get_printer_details "P1"
        ⟨.ok 0 "printer P1 is idle.  enabled since Tue\n" "", .ok 0 "" ""⟩).description
      = none ∧
    (get_printer_details "P1"
        ⟨.ok 0 "printer P1 is idle.  enabled since Tue\n" "", .ok 0 "" ""⟩).description
      ≠ some "" ∧
    (get_printer_details "P1"
        ⟨.ok 0 "printer P1 is idle.  enabled since Tue\n" "", .ok 0 "" ""⟩).location
      = none ∧
    (get_printer_details "P1"
        ⟨.ok 0 "printer P1 is idle.  enabled since Tue\n" "", .ok 0 "" ""⟩).uri
      = none ∧
    (get_printer_details "P1"
        ⟨.ok 0 "note Description: Office Laser\n" "", .ok 0 "" ""⟩).description
      = some "note  Office Laser" :=
  ⟨rfl, by decide, rfl, rfl, rfl⟩

/-- **C5 (amended).** `get_printer_details` recognises attribute lines by
substring *containment* of the markers `"Description:"`, `"Location:"`,
`"DeviceURI:"` in the stripped line; when a marker occurs in no line of
the `lpstat` output the corresponding key is *absent* from the returned
record (`none`), not an error (for `description` this is an exact
characterisation: the key is absent iff no line contains the marker);
the enriched listing `get_available_printers` then substitutes the empty
string for each absent key. -/
theorem c5_amended_details :
    (∀ name out err : String, ∀ o2 : Outcome,
      ((get_printer_details name ⟨.ok 0 out err, o2⟩).description = none ↔
        ∀ l ∈ splitNl out, pyIn "Description:" (pyStrip l) = false)) ∧
    (∀ name : String, ∀ o2 : Outcome, ∀ rc : Int, ∀ out err : String,
      (∀ l ∈ splitNl out, pyIn "Location:" (pyStrip l) = false) →
      (get_printer_details name ⟨.ok rc out err, o2⟩).location = none) ∧
    (∀ name : String, ∀ o2 : Outcome, ∀ rc : Int, ∀ out err : String,
      (∀ l ∈ splitNl out, pyIn "DeviceURI:" (pyStrip l) = false) →
      (get_printer_details name ⟨.ok rc out err, o2⟩).uri = none) ∧
    (∀ env : ListEnv, ∀ p ∈ get_available_printers env,
      p.description = ((get_printer_details p.name (env.details p.name)).description).getD "" ∧
      p.location = ((get_printer_details p.name (env.details p.name)).location).getD "" ∧
      p.uri = ((get_printer_details p.name (env.details p.name)).uri).getD "") := by
  refine ⟨?_, ?_, ?_, ?_⟩
  · intro name out err o2
    obtain ⟨aj, heq⟩ := get_printer_details_eq name out err 0 o2
    rw [heq]
    show (gpdBase name out 0).description = none ↔ _
    unfold gpdBase
    simp only [beq_self_eq_true, if_true]
    constructor
    · intro hnone l hl
      by_contra hcon
      simp only [Bool.not_eq_false] at hcon
      have hs := foldl_detailsLine_description_isSome (splitNl out)
        { name := name, description := none, location := none, uri := none
          active_jobs := none } ⟨l, hl, hcon⟩
      rw [hnone] at hs
      exact absurd hs (by simp)
    · intro hall
      exact foldl_detailsLine_description _ _ hall
  · intro name o2 rc out err hall
    obtain ⟨aj, heq⟩ := get_printer_details_eq name out err rc o2
    rw [heq]
    show (gpdBase name out rc).location = none
    unfold gpdBase
    split
    · exact foldl_detailsLine_location _ _ hall
    · rfl
  · intro name o2 rc out err hall
    obtain ⟨aj, heq⟩ := get_printer_details_eq name out err rc o2
    rw [heq]
    show (gpdBase name out rc).uri = none
    unfold gpdBase
    split
    · exact foldl_detailsLine_uri _ _ hall
    · rfl
  · intro env p hp
    unfold get_available_printers at hp
    split at hp
    · split at hp
      · rw [List.mem_filterMap] at hp
        obtain ⟨line, _, hl⟩ := hp
        exact parseListLine_detail_fields hl
      · exact absurd hp (by simp)
    · exact absurd hp (by simp)

/-- Witness for C5 (amended): a concrete output with no `Description:`
line yields an absent description key. -/
theorem c5_witness :
    (get_printer_details "P1"
        ⟨.ok 0 "printer P1 is idle.\n" "", .timeout⟩).description = none :=
  (c5_amended_details.1 "P1" "printer P1 is idle.\n" "" .timeout).mpr (by decide)

/-- **C6.** Driver search returns at most 100 records.  With the empty
keyword it is exactly the full system listing truncated to 100, in source
order.  With a non-empty keyword the result is a sublist of the full
listing (hence every record is an element and relative order is
preserved), and every returned record contains the keyword
case-insensitively. -/
theorem c6_driver_search (lpinfoM : Outcome) (keyword : String) :
    (get_drivers lpinfoM keyword).length ≤ 100 ∧
    (keyword = "" →
      get_drivers lpinfoM keyword = (get_drivers_from_system lpinfoM).take 100) ∧
    (keyword ≠ "" →
      (get_drivers lpinfoM keyword).Sublist (get_drivers_from_system lpinfoM) ∧
      ∀ d ∈ get_drivers lpinfoM keyword,
        d ∈ get_drivers_from_system lpinfoM ∧
        pyIn (pyLower keyword) (pyLower d) = true) := by
  refine ⟨?_, ?_, ?_⟩
  · unfold get_drivers
    calc (_ : List String).length ≤ 100 ⊓ _ := le_of_eq (List.length_take _ _)
      _ ≤ 100 := min_le_left _ _
  · intro h
    subst h
    unfold get_drivers
    simp
  · intro h
    unfold get_drivers
    simp only [h, if_true, ne_eq, not_false_iff]
    constructor
    · exact (List.take_sublist _ _).trans (List.filter_sublist _)
    · intro d hd
      have hmem := (List.take_sublist 100 _).subset hd
      exact ⟨(List.filter_sublist _).subset hmem, (List.mem_filter.mp hmem).2⟩

/-- Witness for C6 at a concrete driver listing and keyword. -/
theorem c6_witness :
    ("drv:///sample.drv/generic.ppd Generic PDF Printer" ∈
        get_drivers (.ok 0 "everywhere\ndrv:///sample.drv/generic.ppd Generic PDF Printer\nlsb/usr/HP/hp-laserjet.ppd HP LaserJet" "") "GENERIC" ∧
      pyIn (pyLower "GENERIC")
        (pyLower "drv:///sample.drv/generic.ppd Generic PDF Printer") = true) ∧
    get_drivers (.ok 0 "a\nb" "") "" = ["a", "b"] :=
  ⟨((c6_driver_search
        (.ok 0 "everywhere\ndrv:///sample.drv/generic.ppd Generic PDF Printer\nlsb/usr/HP/hp-laserjet.ppd HP LaserJet" "")
        "GENERIC").2.2 (by decide)).2
      "drv:///sample.drv/generic.ppd Generic PDF Printer" (by decide) |>.imp_left
        (fun _ => by decide),
   (c6_driver_search (.ok 0 "a\nb" "") "").2.1 rfl⟩

/-- **C7.** `safe_name` is idempotent and its output matches
`^[A-Za-z0-9_]*$`: every character of the result is in the word class. -/
theorem c7_safe_name (x : String) :
    safe_name (safe_name x) = safe_name x ∧
    (safe_name x).toList.all isWordChar = true := by
  have hidem : ∀ c : Char,
      (if isWordChar (if isWordChar c then c else '_') then
        (if isWordChar c then c else '_') else '_') =
      (if isWordChar c then c else '_') := by
    intro c
    by_cases h : isWordChar c
    · simp [h]
    · simp [h]
  constructor
  · unfold safe_name
    show String.mk (List.map _ (List.map _ x.toList)) = _
    rw [List.map_map]
    refine congrArg String.mk (List.map_congr_left ?_)
    intro c _
    exact hidem c
  · rw [List.all_eq_true]
    intro c hc
    unfold safe_name at hc
    rw [show (String.mk (x.toList.map fun c => if isWordChar c then c else '_')).toList
          = x.toList.map fun c => if isWordChar c then c else '_' from rfl,
        List.mem_map] at hc
    obtain ⟨a, _, ha⟩ := hc
    subst ha
    by_cases h : isWordChar a
    · simp [h]
    · rw [if_neg h]
      decide

/-- **C8.** When the enable/accept calls complete and the existence check
(`lpstat -p <name>`) exits non-zero, `test_printer` fails with the
not-found message, and none of the three submit methods is ever invoked
(their call counts in the trace are zero). -/
theorem c8_test_printer_not_found (printer_name : String) (env : TestEnv)
    (rcE : Int) (oE eE : String) (h1 : env.cupsenable = .ok rcE oE eE)
    (rcA : Int) (oA eA : String) (h2 : env.cupsaccept = .ok rcA oA eA)
    (rcL : Int) (oL eL : String) (h3 : env.lpstatPName = .ok rcL oL eL)
    (hrc : rcL ≠ 0) :
    (test_printer printer_name env).1 =
      (false, "Printer '" ++ printer_name ++ "' not found") ∧
    (test_printer printer_name env).2 =
      [TCmd.cupsenable, TCmd.cupsaccept, TCmd.lpstatPName] ∧
    (test_printer printer_name env).2.count TCmd.submitLp = 0 ∧
    (test_printer printer_name env).2.count TCmd.submitLpr = 0 ∧
    (test_printer printer_name env).2.count TCmd.submitRaw = 0 := by
  have key : test_printer printer_name env =
      ((false, "Printer '" ++ printer_name ++ "' not found"),
       [TCmd.cupsenable, TCmd.cupsaccept, TCmd.lpstatPName]) := by
    unfold test_printer testPrinterBody runCallT
    rw [h1, h2, h3]
    simp [Bind.bind, Except.bind, Pure.pure, Except.pure, hrc]
  have key2 : (test_printer printer_name env).2 =
      [TCmd.cupsenable, TCmd.cupsaccept, TCmd.lpstatPName] := by rw [key]
  refine ⟨by rw [key], key2, ?_, ?_, ?_⟩ <;> rw [key2] <;> decide

/-- Witness for C8 at a concrete environment whose existence check exits 1. -/
theorem c8_witness :
    (test_printer "Ghost" ⟨.ok 0 "" "", .ok 0 "" "", .ok 1 "" "lpstat: Invalid destination name",
        .ok 0 "" "", .ok 0 "" "", .ok 0 "" ""⟩).1 =
      (false, "Printer '" ++ "Ghost" ++ "' not found") ∧
    (test_printer "Ghost" ⟨.ok 0 "" "", .ok 0 "" "", .ok 1 "" "lpstat: Invalid destination name",
        .ok 0 "" "", .ok 0 "" "", .ok 0 "" ""⟩).2 =
      [TCmd.cupsenable, TCmd.cupsaccept, TCmd.lpstatPName] ∧
    (test_printer "Ghost" ⟨.ok 0 "" "", .ok 0 "" "", .ok 1 "" "lpstat: Invalid destination name",
        .ok 0 "" "", .ok 0 "" "", .ok 0 "" ""⟩).2.count TCmd.submitLp = 0 ∧
    (test_printer "Ghost" ⟨.ok 0 "" "", .ok 0 "" "", .ok 1 "" "lpstat: Invalid destination name",
        .ok 0 "" "", .ok 0 "" "", .ok 0 "" ""⟩).2.count TCmd.submitLpr = 0 ∧
    (test_printer "Ghost" ⟨.ok 0 "" "", .ok 0 "" "", .ok 1 "" "lpstat: Invalid destination name",
        .ok 0 "" "", .ok 0 "" "", .ok 0 "" ""⟩).2.count TCmd.submitRaw = 0 :=
  c8_test_printer_not_found "Ghost" _ 0 "" "" rfl 0 "" "" rfl
    1 "" "lpstat: Invalid destination name" rfl (by decide)

/-- **C9.** Against a fully healthy daemon (every command exits 0, the
spool directory exists and every file in it is removable), the fix
procedure runs all four external commands in order, the restart succeeds,
`success = true`, and the transcript holds exactly the five numbered step
entries in order — the fifth being the verification step — and ends with
the verification-success line. -/
theorem c9_fix_procedure_healthy (env : FixEnv)
    (o1 e1 o2 e2 o4 e4 o5 e5 : String)
    (h1 : env.stopBrowsed = .ok 0 o1 e1)
    (h2 : env.cancelAll = .ok 0 o2 e2)
    (h3 : env.spoolExists = true)
    (h4 : cleanSpool env.spoolItems = .ok ())
    (h5 : env.restartCups = .ok 0 o4 e4)
    (h6 : env.verifyActive = .ok 0 o5 e5) :
    (fix_cups_issues env).1.1 = true ∧
    (fix_cups_issues env).1.2 =
      ["=== CUPS Fix Procedure ===",
       "1. Stopping cups-browsed...", "   ✓ cups-browsed stopped",
       "2. Cancelling all print jobs...", "   ✓ All jobs cancelled",
       "3. Cleaning spool directory...", "   ✓ Spool directory cleaned",
       "4. Restarting CUPS...", "   ✓ CUPS restarted",
       "5. Verifying CUPS...", "   ✓ CUPS is active and running"] ∧
    (fix_cups_issues env).1.2.filter isStepHeader =
      ["1. Stopping cups-browsed...", "2. Cancelling all print jobs...",
       "3. Cleaning spool directory...", "4. Restarting CUPS...",
       "5. Verifying CUPS..."] ∧
    (fix_cups_issues env).1.2.getLast? = some "   ✓ CUPS is active and running" ∧
    (fix_cups_issues env).2 =
      [FCmd.stopBrowsed, FCmd.cancelAll, FCmd.restartCups, FCmd.verifyActive] := by
  have key : fix_cups_issues env =
      ((true,
        ["=== CUPS Fix Procedure ===",
         "1. Stopping cups-browsed...", "   ✓ cups-browsed stopped",
         "2. Cancelling all print jobs...", "   ✓ All jobs cancelled",
         "3. Cleaning spool directory...", "   ✓ Spool directory cleaned",
         "4. Restarting CUPS...", "   ✓ CUPS restarted",
         "5. Verifying CUPS...", "   ✓ CUPS is active and running"]),
       [FCmd.stopBrowsed, FCmd.cancelAll, FCmd.restartCups, FCmd.verifyActive]) := by
    unfold fix_cups_issues
    rw [h1, h2, h3, h4, h5, h6]
    simp
  refine ⟨by rw [key], by rw [key], ?_, ?_, by rw [key]⟩ <;> rw [key] <;> decide

/-- Witness for C9 at a concrete all-healthy environment. -/
theorem c9_witness :
    (fix_cups_issues ⟨.ok 0 "" "", .ok 0 "" "", true, [⟨true, none⟩, ⟨false, none⟩],
        .ok 0 "" "", .ok 0 "active\n" ""⟩).1.1 = true ∧
    (fix_cups_issues ⟨.ok 0 "" "", .ok 0 "" "", true, [⟨true, none⟩, ⟨false, none⟩],
        .ok 0 "" "", .ok 0 "active\n" ""⟩).1.2 =
      ["=== CUPS Fix Procedure ===",
       "1. Stopping cups-browsed...", "   ✓ cups-browsed stopped",
       "2. Cancelling all print jobs...", "   ✓ All jobs cancelled",
       "3. Cleaning spool directory...", "   ✓ Spool directory cleaned",
       "4. Restarting CUPS...", "   ✓ CUPS restarted",
       "5. Verifying CUPS...", "   ✓ CUPS is active and running"] ∧
    (fix_cups_issues ⟨.ok 0 "" "", .ok 0 "" "", true, [⟨true, none⟩, ⟨false, none⟩],
        .ok 0 "" "", .ok 0 "active\n" ""⟩).1.2.filter isStepHeader =
      ["1. Stopping cups-browsed...", "2. Cancelling all print jobs...",
       "3. Cleaning spool directory...", "4. Restarting CUPS...",
       "5. Verifying CUPS..."] ∧
    (fix_cups_issues ⟨.ok 0 "" "", .ok 0 "" "", true, [⟨true, none⟩, ⟨false, none⟩],
        .ok 0 "" "", .ok 0 "active\n" ""⟩).1.2.getLast?
      = some "   ✓ CUPS is active and running" ∧
    (fix_cups_issues ⟨.ok 0 "" "", .ok 0 "" "", true, [⟨true, none⟩, ⟨false, none⟩],
        .ok 0 "" "", .ok 0 "active\n" ""⟩).2 =
      [FCmd.stopBrowsed, FCmd.cancelAll, FCmd.restartCups, FCmd.verifyActive] :=
  c9_fix_procedure_healthy _ "" "" "" "" "" "" "active\n" "" rfl rfl rfl rfl rfl rfl

/-- **C10.** For every environment behaviour of the four underlying
commands — including timeouts and arbitrary exceptions at any sub-call —
`get_cups_status` never raises: the `try` block composed with the outer
handler always yields `Except.ok`, agreeing with the total function
`getCupsStatusT` (whose `Status` record carries all seven fields by
construction); and an unexpected exception at the service query, probe or
queue listing ends up verbatim in the `error` field. -/
theorem c10_get_cups_status_total (env : StatusEnv) :
    getCupsStatusX env = Except.ok (getCupsStatusT env) ∧
    (∀ m, env.isActiveCups = .exn m → (getCupsStatus env).error = some m) ∧
    (∀ m out err, env.isActiveCups = .ok 0 out err → env.lpstatR = .exn m →
      (getCupsStatus env).error = some m) ∧
    (∀ m out err out2 err2, env.isActiveCups = .ok 0 out err →
      env.lpstatR = .ok 0 out2 err2 → env.lpstatP = .exn m →
      (getCupsStatus env).error = some m) := by
  refine ⟨?_, ?_, ?_, ?_⟩
  · unfold getCupsStatusX getCupsStatusRaw getCupsStatusT statusStep3Raw statusStep3
    cases env.isActiveCups with
    | exn m => rfl
    | timeout => rfl
    | ok rc out err =>
      by_cases hrc : rc == 0
      · simp only [hrc, if_true]
        cases env.lpstatR with
        | ok rc2 o2 e2 =>
          by_cases h2 : rc2 == 0
          · simp only [h2, if_true]
            cases env.lpstatP <;> rfl
          · simp only [h2, Bool.false_eq_true, if_false]
        | timeout => rfl
        | exn m => rfl
      · simp only [hrc, Bool.false_eq_true, if_false]
  · intro m h
    unfold getCupsStatus getCupsStatusT
    rw [h]
  · intro m out err h1 h2
    unfold getCupsStatus getCupsStatusT
    rw [h1, h2]
    simp
  · intro m out err out2 err2 h1 h2 h3
    unfold getCupsStatus getCupsStatusT statusStep3
    rw [h1, h2, h3]
    simp

/-- Witness for C10: a concrete environment whose service query raises a
generic exception; the call still returns, with the message in `error`. -/
theorem c10_witness :
    getCupsStatusX ⟨.exn "boom", .ok 0 "" "", .ok 0 "" "", .ok 0 "" ""⟩
      = Except.ok (getCupsStatusT ⟨.exn "boom", .ok 0 "" "", .ok 0 "" "", .ok 0 "" ""⟩) ∧
    (getCupsStatus ⟨.exn "boom", .ok 0 "" "", .ok 0 "" "", .ok 0 "" ""⟩).error = some "boom" :=
  ⟨(c10_get_cups_status_total ⟨.exn "boom", .ok 0 "" "", .ok 0 "" "", .ok 0 "" ""⟩).1,
   (c10_get_cups_status_total ⟨.exn "boom", .ok 0 "" "", .ok 0 "" "", .ok 0 "" ""⟩).2.1
     "boom" rfl⟩

end PM
